import Mathlib

/-!
Verification of the nodejs_npm action pipeline
(`aws_lambda_builders/workflows/nodejs_npm/actions.py`).

The three actions (`NodejsNpmPackAction`, `NodejsNpmInstallAction`,
`NodejsNpmScriptAction`) are shallowly embedded as pure Lean functions.
Collaborators (the NPM process wrapper `subprocess_npm`, the filesystem
utility `osutils`, and the stdlib JSON decoder `json.loads`) are passed in
as explicit behaviour records; the external side effects an action performs
(executor invocations, tarball extraction) are returned as an ordered
`Effect` trace next to the `Except` result that models Python's
raise/return control flow.
-/

namespace AwsLambdaBuilders

/-- Parsed JSON values, the result type of a successful `json.loads`.
Objects keep their fields as an association list; `json.loads` produces
dicts with unique keys, so first-match lookup is faithful. -/
inductive JValue where
  | null
  | bool (b : Bool)
  | num (n : Int)
  | str (s : String)
  | arr (elems : List JValue)
  | obj (fields : List (String × JValue))
deriving Repr

/-- The Python exception classes that can cross these functions:
`NpmExecutionError` (raised by the process wrapper), `ValueError`
(superclass of the JSON decode error), `AttributeError` (e.g. `.keys()` on
a non-dict), `OSError` (generic I/O, e.g. tarball extraction faults), and
`ActionFailedError` (the uniform pipeline failure).  Each carries its
`str(ex)` message. -/
inductive PyError where
  | npmExecutionError (message : String)
  | valueError (message : String)
  | attributeError (message : String)
  | oSError (message : String)
  | actionFailedError (message : String)
deriving Repr, DecidableEq

/-- An observable external side effect performed by an action: one
`subprocess_npm.run(args, cwd=cwd)` invocation, or one
`osutils.extract_tarfile(tarfile_path, dest)` call. -/
inductive Effect where
  | npmRun (args : List String) (cwd : String)
  | extractTarfile (tarfile_path : String) (dest : String)
deriving Repr, DecidableEq

/-- Behaviour of the `osutils` collaborator
(`aws_lambda_builders.workflows.nodejs_npm.utils.OSUtils`): pure path
functions, a fallible text read, and the outcome of a tarball extraction
(the extraction side effect itself is recorded in the `Effect` trace). -/
structure OSUtils where
  abspath : String → String
  dirname : String → String
  joinpath : String → String → String
  get_text_contents : String → Except PyError String
  extract_tarfile_result : String → String → Except PyError Unit

/-- Behaviour of the `subprocess_npm` collaborator
(`aws_lambda_builders.workflows.nodejs_npm.npm.SubprocessNpm`): `run`
returns the captured output text or raises, by contract an
`NpmExecutionError`. -/
structure SubprocessNpm where
  run : List String → String → Except PyError String

/-- Python type name of a JSON value, used in `AttributeError` messages. -/
def JValue.typeName : JValue → String
  | .null => "NoneType"
  | .bool _ => "bool"
  | .num _ => "int"
  | .str _ => "str"
  | .arr _ => "list"
  | .obj _ => "dict"

/-- Embeds `.keys()`: the key list of a dict, and an `AttributeError` on
any other value (Python raises `'<type>' object has no attribute 'keys'`). -/
def JValue.keys : JValue → Except PyError (List String)
  | .obj fields => .ok (fields.map Prod.fst)
  | v => .error (.attributeError ("'" ++ v.typeName ++ "' object has no attribute 'keys'"))

/-- Embeds dict subscript `v[k]`.  Only reached after a membership check in
the embedded code, so the default for a missing key or non-dict is
irrelevant to any execution path. -/
def JValue.item : JValue → String → JValue
  | .obj fields, k => ((fields.find? (fun p => p.1 == k)).map Prod.snd).getD .null
  | _, _ => .null

/-- Embeds `except NpmExecutionError as ex: raise ActionFailedError(str(ex))`,
the sole handler in `NodejsNpmPackAction.execute` and
`NodejsNpmInstallAction.execute`: an `NpmExecutionError` is wrapped, any
other exception propagates unchanged. -/
def catchNpmExecutionError (e : PyError) : Except PyError Unit :=
  match e with
  | .npmExecutionError m => .error (.actionFailedError m)
  | _ => .error e

/-- Constructor-bound state of `NodejsNpmPackAction`. -/
structure NodejsNpmPackAction where
  artifacts_dir : String
  scratch_dir : String
  manifest_path : String

/-- The local `package_path` of `NodejsNpmPackAction.execute`:
`"file:{}".format(self.osutils.abspath(self.osutils.dirname(self.manifest_path)))`. -/
def NodejsNpmPackAction.package_path (a : NodejsNpmPackAction) (osutils : OSUtils) : String :=
  "file:" ++ osutils.abspath (osutils.dirname a.manifest_path)

/-- Embeds `NodejsNpmPackAction.execute`: run `npm pack -q <package_path>`
in the scratch directory, join the returned tarball name onto the scratch
directory, extract it into the artifacts directory; wrap
`NpmExecutionError` as `ActionFailedError`. -/
def NodejsNpmPackAction.execute (a : NodejsNpmPackAction) (osutils : OSUtils)
    (subprocess_npm : SubprocessNpm) : Except PyError Unit × List Effect :=
  match subprocess_npm.run ["pack", "-q", a.package_path osutils] a.scratch_dir with
  | .error e =>
      (catchNpmExecutionError e,
       [.npmRun ["pack", "-q", a.package_path osutils] a.scratch_dir])
  | .ok tarfile_name =>
      match osutils.extract_tarfile_result (osutils.joinpath a.scratch_dir tarfile_name)
          a.artifacts_dir with
      | .error e =>
          (catchNpmExecutionError e,
           [.npmRun ["pack", "-q", a.package_path osutils] a.scratch_dir,
            .extractTarfile (osutils.joinpath a.scratch_dir tarfile_name) a.artifacts_dir])
      | .ok _ =>
          (.ok (),
           [.npmRun ["pack", "-q", a.package_path osutils] a.scratch_dir,
            .extractTarfile (osutils.joinpath a.scratch_dir tarfile_name) a.artifacts_dir])

/-- Constructor-bound state of `NodejsNpmInstallAction`. -/
structure NodejsNpmInstallAction where
  artifacts_dir : String

/-- Embeds `NodejsNpmInstallAction.execute`: run
`npm install -q --no-audit --no-save --production` in the artifacts
directory; wrap `NpmExecutionError` as `ActionFailedError`. -/
def NodejsNpmInstallAction.execute (a : NodejsNpmInstallAction)
    (subprocess_npm : SubprocessNpm) : Except PyError Unit × List Effect :=
  match subprocess_npm.run ["install", "-q", "--no-audit", "--no-save", "--production"]
      a.artifacts_dir with
  | .error e =>
      (catchNpmExecutionError e,
       [.npmRun ["install", "-q", "--no-audit", "--no-save", "--production"] a.artifacts_dir])
  | .ok _ =>
      (.ok (),
       [.npmRun ["install", "-q", "--no-audit", "--no-save", "--production"] a.artifacts_dir])

/-- Constructor-bound state of `NodejsNpmScriptAction`. -/
structure NodejsNpmScriptAction where
  working_dir : String
  manifest_path : String
  script_name : String

/-- Embeds the two handlers of `NodejsNpmScriptAction.execute`:
`except NpmExecutionError` wraps the message as-is, `except ValueError`
wraps it as `"{} is not valid json: {}".format(self.manifest_path, str(ex))`;
anything else (e.g. `AttributeError`) propagates unchanged. -/
def NodejsNpmScriptAction.catchScriptErrors (a : NodejsNpmScriptAction)
    (e : PyError) : Except PyError Unit :=
  match e with
  | .npmExecutionError m => .error (.actionFailedError m)
  | .valueError m =>
      .error (.actionFailedError (a.manifest_path ++ " is not valid json: " ++ m))
  | _ => .error e

/-- Embeds `NodejsNpmScriptAction.execute`: read the manifest text, parse
it with `json.loads` (modelled by the `json_loads` oracle; its parse error
message is raised as a `ValueError`), then
`if "scripts" in parsed_json.keys() and self.script_name in
parsed_json["scripts"].keys():` run `npm run <script_name>` in the working
directory, else do nothing. -/
def NodejsNpmScriptAction.execute (a : NodejsNpmScriptAction) (osutils : OSUtils)
    (json_loads : String → Except String JValue) (subprocess_npm : SubprocessNpm) :
    Except PyError Unit × List Effect :=
  match osutils.get_text_contents a.manifest_path with
  | .error e => (a.catchScriptErrors e, [])
  | .ok manifest_contents =>
      match json_loads manifest_contents with
      | .error msg => (a.catchScriptErrors (.valueError msg), [])
      | .ok parsed_json =>
          match parsed_json.keys with
          | .error e => (a.catchScriptErrors e, [])
          | .ok top_keys =>
              if "scripts" ∈ top_keys then
                match (parsed_json.item "scripts").keys with
                | .error e => (a.catchScriptErrors e, [])
                | .ok script_keys =>
                    if a.script_name ∈ script_keys then
                      match subprocess_npm.run ["run", a.script_name] a.working_dir with
                      | .error e =>
                          (a.catchScriptErrors e,
                           [.npmRun ["run", a.script_name] a.working_dir])
                      | .ok _ =>
                          (.ok (), [.npmRun ["run", a.script_name] a.working_dir])
                    else (.ok (), [])
              else (.ok (), [])

/-- Tests whether an execution outcome is the uniform pipeline failure. -/
def resultIsActionFailedError : Except PyError Unit → Bool
  | .error (.actionFailedError _) => true
  | _ => false

/-! Concrete collaborator behaviours and action instances, used to run the
embedded actions on closed inputs. -/

/-- A pack action bound to concrete directories and manifest path. -/
def packAction : NodejsNpmPackAction :=
  ⟨"/artifacts", "/scratch", "/proj/package.json"⟩

/-- An install action bound to a concrete artifacts directory. -/
def installAction : NodejsNpmInstallAction := ⟨"/artifacts"⟩

/-- A script action asked to run the script named `build`. -/
def scriptActionBuild : NodejsNpmScriptAction :=
  ⟨"/work", "/proj/package.json", "build"⟩

/-- A script action asked to run the script named by the empty string. -/
def scriptActionEmptyName : NodejsNpmScriptAction :=
  ⟨"/work", "/proj/package.json", ""⟩

/-- Filesystem behaviour on which every call succeeds. -/
def osutilsOk : OSUtils where
  abspath := fun p => p
  dirname := fun _ => "/proj"
  joinpath := fun d f => d ++ "/" ++ f
  get_text_contents := fun _ => .ok "manifest-text"
  extract_tarfile_result := fun _ _ => .ok ()

/-- Filesystem behaviour on which tarball extraction fails with a generic
I/O error (corrupt archive, permission, disk space, ...). -/
def osutilsExtractFault : OSUtils where
  abspath := fun p => p
  dirname := fun _ => "/proj"
  joinpath := fun d f => d ++ "/" ++ f
  get_text_contents := fun _ => .ok "manifest-text"
  extract_tarfile_result := fun _ _ => .error (.oSError "tar extraction failed")

/-- Executor behaviour that succeeds, printing a created tarball name. -/
def npmOkTar : SubprocessNpm := ⟨fun _ _ => .ok "pkg-1.0.0.tgz"⟩

/-- Executor behaviour that succeeds with empty captured output. -/
def npmOkEmptyOutput : SubprocessNpm := ⟨fun _ _ => .ok ""⟩

/-- Executor behaviour that raises `NpmExecutionError` with a fixed
diagnostic message. -/
def npmFailBoom : SubprocessNpm :=
  ⟨fun _ _ => .error (.npmExecutionError "NPM Failed: boom")⟩

/-- Parse oracle: a manifest object with a single `scripts` entry mapping
`build` to `tsc`. -/
def jsonLoadsScriptsBuild : String → Except String JValue :=
  fun _ => .ok (.obj [("scripts", .obj [("build", .str "tsc")])])

/-- Parse oracle: a manifest whose `scripts` object has the empty string as
its only key. -/
def jsonLoadsScriptsEmptyKey : String → Except String JValue :=
  fun _ => .ok (.obj [("scripts", .obj [("", .str "true")])])

/-- Parse oracle: a manifest whose `scripts` object declares only `test`. -/
def jsonLoadsScriptsTestOnly : String → Except String JValue :=
  fun _ => .ok (.obj [("scripts", .obj [("test", .str "mocha")])])

/-- Parse oracle: a manifest object with no `scripts` key. -/
def jsonLoadsNoScripts : String → Except String JValue :=
  fun _ => .ok (.obj [("name", .str "pkg")])

/-- Parse oracle: valid JSON whose top-level value is a list. -/
def jsonLoadsTopLevelList : String → Except String JValue :=
  fun _ => .ok (.arr [])

/-- Parse oracle: a manifest object whose `scripts` value is `null`. -/
def jsonLoadsScriptsNull : String → Except String JValue :=
  fun _ => .ok (.obj [("scripts", .null)])

/-- Parse oracle: invalid JSON text, rejected with the decoder's
diagnostic. -/
def jsonLoadsInvalid : String → Except String JValue :=
  fun _ => .error "Expecting value: line 1 column 1 (char 0)"

/-! Theorems settling the claims. -/

/-- C1 counterexample: when the `npm pack` invocation succeeds but tarball
extraction raises a generic I/O error, `NodejsNpmPackAction.execute` lets
that error escape unchanged — it is not re-raised as `ActionFailedError`,
refuting the claim that extraction-level failures are caught at the action
boundary. -/
theorem pack_extraction_fault_escapes_cex :
    (packAction.execute osutilsExtractFault npmOkTar).1
        = .error (.oSError "tar extraction failed")
    ∧ resultIsActionFailedError (packAction.execute osutilsExtractFault npmOkTar).1
        = false := by
  constructor <;> rfl

/-- C1 (amended): `NodejsNpmPackAction.execute` never lets an
`NpmExecutionError` escape; an `NpmExecutionError` from the packaging
subcommand is re-raised as `ActionFailedError` with the original message;
but an extraction failure of any other exception type escapes the action
boundary unchanged. -/
theorem pack_error_boundary (a : NodejsNpmPackAction) (osutils : OSUtils)
    (subprocess_npm : SubprocessNpm) :
    (∀ m, (a.execute osutils subprocess_npm).1 ≠ .error (.npmExecutionError m))
    ∧ (∀ m,
        subprocess_npm.run ["pack", "-q", a.package_path osutils] a.scratch_dir
            = .error (.npmExecutionError m) →
        (a.execute osutils subprocess_npm).1 = .error (.actionFailedError m))
    ∧ (∀ tarfile_name e,
        subprocess_npm.run ["pack", "-q", a.package_path osutils] a.scratch_dir
            = .ok tarfile_name →
        osutils.extract_tarfile_result (osutils.joinpath a.scratch_dir tarfile_name)
            a.artifacts_dir = .error e →
        (∀ m, e ≠ .npmExecutionError m) →
        (a.execute osutils subprocess_npm).1 = .error e) := by
  refine ⟨?_, ?_, ?_⟩
  · intro m
    unfold NodejsNpmPackAction.execute
    cases hrun : subprocess_npm.run ["pack", "-q", a.package_path osutils] a.scratch_dir with
    | error e => cases e <;> simp [catchNpmExecutionError]
    | ok tarfile_name =>
      cases hex : osutils.extract_tarfile_result
          (osutils.joinpath a.scratch_dir tarfile_name) a.artifacts_dir with
      | error e => cases e <;> simp [hex, catchNpmExecutionError]
      | ok u => simp [hex]
  · intro m hrun
    simp [NodejsNpmPackAction.execute, hrun, catchNpmExecutionError]
  · intro tarfile_name e hrun hex hne
    cases e with
    | npmExecutionError m => exact absurd rfl (hne m)
    | valueError m => simp [NodejsNpmPackAction.execute, hrun, hex, catchNpmExecutionError]
    | attributeError m => simp [NodejsNpmPackAction.execute, hrun, hex, catchNpmExecutionError]
    | oSError m => simp [NodejsNpmPackAction.execute, hrun, hex, catchNpmExecutionError]
    | actionFailedError m => simp [NodejsNpmPackAction.execute, hrun, hex, catchNpmExecutionError]

/-- C1 witness: on a concrete run where the executor raises
`NpmExecutionError`, the pack action raises `ActionFailedError` with the
original message. -/
theorem pack_error_boundary_witness :
    (packAction.execute osutilsOk npmFailBoom).1
        = .error (.actionFailedError "NPM Failed: boom") :=
  (pack_error_boundary packAction osutilsOk npmFailBoom).2.1 "NPM Failed: boom" rfl

/-- C2: when the executor raises `NpmExecutionError` with message `m`
during packing or installing, `NodejsNpmPackAction.execute` and
`NodejsNpmInstallAction.execute` each raise `ActionFailedError` whose
message equals `m`, unmodified. -/
theorem npm_execution_fault_message_passthrough
    (p : NodejsNpmPackAction) (i : NodejsNpmInstallAction) (osutils : OSUtils)
    (subprocess_npm : SubprocessNpm) (m : String)
    (hpack : subprocess_npm.run ["pack", "-q", p.package_path osutils] p.scratch_dir
        = .error (.npmExecutionError m))
    (hinstall : subprocess_npm.run
        ["install", "-q", "--no-audit", "--no-save", "--production"] i.artifacts_dir
        = .error (.npmExecutionError m)) :
    (p.execute osutils subprocess_npm).1 = .error (.actionFailedError m)
    ∧ (i.execute subprocess_npm).1 = .error (.actionFailedError m) := by
  constructor
  · simp [NodejsNpmPackAction.execute, hpack, catchNpmExecutionError]
  · simp [NodejsNpmInstallAction.execute, hinstall, catchNpmExecutionError]

/-- C2 witness: a concrete failing executor run shows the pass-through of
the diagnostic message for both actions. -/
theorem npm_execution_fault_message_passthrough_witness :
    (packAction.execute osutilsOk npmFailBoom).1
        = .error (.actionFailedError "NPM Failed: boom")
    ∧ (installAction.execute npmFailBoom).1
        = .error (.actionFailedError "NPM Failed: boom") :=
  npm_execution_fault_message_passthrough packAction installAction osutilsOk npmFailBoom
    "NPM Failed: boom" rfl rfl

/-- C6: every run of `NodejsNpmInstallAction.execute` performs exactly one
executor invocation, with argument list
`install -q --no-audit --no-save --production` and working directory equal
to the artifacts directory bound at construction. -/
theorem install_single_exact_invocation (a : NodejsNpmInstallAction)
    (subprocess_npm : SubprocessNpm) :
    (a.execute subprocess_npm).2
      = [.npmRun ["install", "-q", "--no-audit", "--no-save", "--production"]
          a.artifacts_dir] := by
  unfold NodejsNpmInstallAction.execute
  cases subprocess_npm.run ["install", "-q", "--no-audit", "--no-save", "--production"]
      a.artifacts_dir <;> rfl

/-- C7: on a successful pack run, the package-source reference is the
`file:`-prefixed absolute directory of the manifest; the executor is
invoked with the quiet pack subcommand in the scratch directory and its
output is taken as the tarball name; the tarball path is the join of the
scratch directory with that name; and that tarball is extracted into the
artifacts directory — in that order. -/
theorem pack_success_sequence (a : NodejsNpmPackAction) (osutils : OSUtils)
    (subprocess_npm : SubprocessNpm) (tarfile_name : String)
    (hrun : subprocess_npm.run ["pack", "-q", a.package_path osutils] a.scratch_dir
        = .ok tarfile_name)
    (hextract : osutils.extract_tarfile_result
        (osutils.joinpath a.scratch_dir tarfile_name) a.artifacts_dir = .ok ()) :
    a.package_path osutils = "file:" ++ osutils.abspath (osutils.dirname a.manifest_path)
    ∧ a.execute osutils subprocess_npm
        = (.ok (),
           [.npmRun ["pack", "-q", a.package_path osutils] a.scratch_dir,
            .extractTarfile (osutils.joinpath a.scratch_dir tarfile_name)
              a.artifacts_dir]) := by
  constructor
  · rfl
  · simp [NodejsNpmPackAction.execute, hrun, hextract]

/-- C7 witness: a concrete successful pack run produces exactly the
pack-then-extract effect sequence. -/
theorem pack_success_sequence_witness :
    packAction.package_path osutilsOk
        = "file:" ++ osutilsOk.abspath (osutilsOk.dirname packAction.manifest_path)
    ∧ packAction.execute osutilsOk npmOkTar
        = (.ok (),
           [.npmRun ["pack", "-q", packAction.package_path osutilsOk]
              packAction.scratch_dir,
            .extractTarfile (osutilsOk.joinpath packAction.scratch_dir "pkg-1.0.0.tgz")
              packAction.artifacts_dir]) :=
  pack_success_sequence packAction osutilsOk npmOkTar "pkg-1.0.0.tgz" rfl rfl

/-- C3: when the parsed manifest object has no `scripts` key, or its
`scripts` object lacks the requested script name,
`NodejsNpmScriptAction.execute` succeeds and performs zero executor
invocations. -/
theorem script_absent_is_noop (a : NodejsNpmScriptAction) (osutils : OSUtils)
    (json_loads : String → Except String JValue) (subprocess_npm : SubprocessNpm)
    (manifest_contents : String) (fields : List (String × JValue))
    (hread : osutils.get_text_contents a.manifest_path = .ok manifest_contents)
    (hparse : json_loads manifest_contents = .ok (.obj fields))
    (habsent : "scripts" ∉ fields.map Prod.fst
      ∨ ∃ script_fields, (JValue.obj fields).item "scripts" = .obj script_fields
          ∧ a.script_name ∉ script_fields.map Prod.fst) :
    a.execute osutils json_loads subprocess_npm = (.ok (), []) := by
  cases habsent with
  | inl h => simp [NodejsNpmScriptAction.execute, hread, hparse, JValue.keys, h]
  | inr h =>
    obtain ⟨script_fields, hsf, hnotin⟩ := h
    by_cases hmem : "scripts" ∈ fields.map Prod.fst
    · simp [NodejsNpmScriptAction.execute, hread, hparse, JValue.keys, hmem, hsf, hnotin]
    · simp [NodejsNpmScriptAction.execute, hread, hparse, JValue.keys, hmem]

/-- C3 witness: a concrete manifest without a `scripts` key yields the
no-op success with an empty effect trace. -/
theorem script_absent_is_noop_witness :
    scriptActionBuild.execute osutilsOk jsonLoadsNoScripts npmOkTar = (.ok (), []) :=
  script_absent_is_noop scriptActionBuild osutilsOk jsonLoadsNoScripts npmOkTar
    "manifest-text" [("name", .str "pkg")] rfl rfl (Or.inl (by decide))

/-- C4: when the manifest text fails to parse,
`NodejsNpmScriptAction.execute` raises `ActionFailedError` whose message
contains the manifest path (as its leading part) and the parse diagnostic
(as its trailing part). -/
theorem script_parse_failure_message (a : NodejsNpmScriptAction) (osutils : OSUtils)
    (json_loads : String → Except String JValue) (subprocess_npm : SubprocessNpm)
    (manifest_contents msg : String)
    (hread : osutils.get_text_contents a.manifest_path = .ok manifest_contents)
    (hparse : json_loads manifest_contents = .error msg) :
    ∃ failure_message,
      (a.execute osutils json_loads subprocess_npm).1
          = .error (.actionFailedError failure_message)
      ∧ (∃ rest, failure_message = a.manifest_path ++ rest)
      ∧ (∃ front, failure_message = front ++ msg) := by
  refine ⟨a.manifest_path ++ " is not valid json: " ++ msg, ?_,
    ⟨" is not valid json: " ++ msg, ?_⟩,
    ⟨a.manifest_path ++ " is not valid json: ", rfl⟩⟩
  · simp [NodejsNpmScriptAction.execute, hread, hparse,
      NodejsNpmScriptAction.catchScriptErrors]
  · rw [String.append_assoc]

/-- C4 witness: a concrete invalid manifest produces the pipeline failure
with the path-and-diagnostic message. -/
theorem script_parse_failure_message_witness :
    ∃ failure_message,
      (scriptActionBuild.execute osutilsOk jsonLoadsInvalid npmOkTar).1
          = .error (.actionFailedError failure_message)
      ∧ (∃ rest, failure_message = scriptActionBuild.manifest_path ++ rest)
      ∧ (∃ front, failure_message = front ++ "Expecting value: line 1 column 1 (char 0)") :=
  script_parse_failure_message scriptActionBuild osutilsOk jsonLoadsInvalid npmOkTar
    "manifest-text" "Expecting value: line 1 column 1 (char 0)" rfl rfl

/-- C5: when the parsed manifest's `scripts` object contains the requested
script name and the run succeeds (with any captured output, including the
empty string), `NodejsNpmScriptAction.execute` succeeds and its effect
trace is exactly one executor invocation with arguments
`run <script_name>` and working directory `working_dir`. -/
theorem script_present_runs_exactly_once (a : NodejsNpmScriptAction)
    (osutils : OSUtils) (json_loads : String → Except String JValue)
    (subprocess_npm : SubprocessNpm) (manifest_contents output : String)
    (fields script_fields : List (String × JValue))
    (hread : osutils.get_text_contents a.manifest_path = .ok manifest_contents)
    (hparse : json_loads manifest_contents = .ok (.obj fields))
    (hscripts_mem : "scripts" ∈ fields.map Prod.fst)
    (hscripts_val : (JValue.obj fields).item "scripts" = .obj script_fields)
    (hname : a.script_name ∈ script_fields.map Prod.fst)
    (hrun : subprocess_npm.run ["run", a.script_name] a.working_dir = .ok output) :
    a.execute osutils json_loads subprocess_npm
      = (.ok (), [.npmRun ["run", a.script_name] a.working_dir]) := by
  simp [NodejsNpmScriptAction.execute, hread, hparse, JValue.keys, hscripts_mem,
    hscripts_val, hname, hrun]

/-- C5 witness: a concrete manifest declaring the `build` script, run with
an executor whose captured output is the empty string, yields success and
exactly one `npm run build` invocation in the working directory. -/
theorem script_present_runs_exactly_once_witness :
    scriptActionBuild.execute osutilsOk jsonLoadsScriptsBuild npmOkEmptyOutput
      = (.ok (), [.npmRun ["run", "build"] "/work"]) :=
  script_present_runs_exactly_once scriptActionBuild osutilsOk jsonLoadsScriptsBuild
    npmOkEmptyOutput "manifest-text" "" [("scripts", .obj [("build", .str "tsc")])]
    [("build", .str "tsc")] rfl rfl (by decide) rfl (by decide) rfl

/-- C8: an empty-string script name gets no special treatment: with
`script_name = ""`, if the `scripts` object has `""` as a key the executor
is invoked with `run ""`, and if not the no-op path is taken. -/
theorem script_empty_name_not_special (a : NodejsNpmScriptAction)
    (osutils : OSUtils) (json_loads : String → Except String JValue)
    (subprocess_npm : SubprocessNpm) (manifest_contents : String)
    (fields script_fields : List (String × JValue))
    (hempty : a.script_name = "")
    (hread : osutils.get_text_contents a.manifest_path = .ok manifest_contents)
    (hparse : json_loads manifest_contents = .ok (.obj fields))
    (hscripts_mem : "scripts" ∈ fields.map Prod.fst)
    (hscripts_val : (JValue.obj fields).item "scripts" = .obj script_fields) :
    (∀ output, "" ∈ script_fields.map Prod.fst →
        subprocess_npm.run ["run", ""] a.working_dir = .ok output →
        a.execute osutils json_loads subprocess_npm
          = (.ok (), [.npmRun ["run", ""] a.working_dir]))
    ∧ ("" ∉ script_fields.map Prod.fst →
        a.execute osutils json_loads subprocess_npm = (.ok (), [])) := by
  constructor
  · intro output hkey hrun
    simp [NodejsNpmScriptAction.execute, hread, hparse, JValue.keys, hscripts_mem,
      hscripts_val, hempty, hkey, hrun]
  · intro hkey
    simp [NodejsNpmScriptAction.execute, hread, hparse, JValue.keys, hscripts_mem,
      hscripts_val, hempty, hkey]

/-- C8 witness: with a concrete `scripts` object whose only key is `""`,
the empty-named script action runs `npm run ""` exactly once. -/
theorem script_empty_name_not_special_witness :
    scriptActionEmptyName.execute osutilsOk jsonLoadsScriptsEmptyKey npmOkEmptyOutput
      = (.ok (), [.npmRun ["run", ""] "/work"]) :=
  (script_empty_name_not_special scriptActionEmptyName osutilsOk jsonLoadsScriptsEmptyKey
      npmOkEmptyOutput "manifest-text" [("scripts", .obj [("", .str "true")])]
      [("", .str "true")] rfl rfl rfl (by decide) rfl).1 "" (by decide) rfl

/-- C9: if the parsed top-level value is not an object, or the `scripts`
value is not an object, `NodejsNpmScriptAction.execute` raises an
`AttributeError` (no attribute `keys`) which escapes the action boundary
as-is instead of being translated into `ActionFailedError`, and no
executor invocation is made. -/
theorem script_nonobject_attribute_error (a : NodejsNpmScriptAction)
    (osutils : OSUtils) (json_loads : String → Except String JValue)
    (subprocess_npm : SubprocessNpm) (manifest_contents : String)
    (parsed_json : JValue)
    (hread : osutils.get_text_contents a.manifest_path = .ok manifest_contents)
    (hparse : json_loads manifest_contents = .ok parsed_json) :
    ((∀ fields, parsed_json ≠ .obj fields) →
        a.execute osutils json_loads subprocess_npm
          = (.error (.attributeError
              ("'" ++ parsed_json.typeName ++ "' object has no attribute 'keys'")), []))
    ∧ (∀ fields, parsed_json = .obj fields →
        "scripts" ∈ fields.map Prod.fst →
        (∀ script_fields, (JValue.obj fields).item "scripts" ≠ .obj script_fields) →
        a.execute osutils json_loads subprocess_npm
          = (.error (.attributeError
              ("'" ++ ((JValue.obj fields).item "scripts").typeName
                ++ "' object has no attribute 'keys'")), [])) := by
  constructor
  · intro hnonobj
    cases parsed_json with
    | obj fields => exact absurd rfl (hnonobj fields)
    | null =>
        simp [NodejsNpmScriptAction.execute, hread, hparse, JValue.keys,
          JValue.typeName, NodejsNpmScriptAction.catchScriptErrors]
    | bool b =>
        simp [NodejsNpmScriptAction.execute, hread, hparse, JValue.keys,
          JValue.typeName, NodejsNpmScriptAction.catchScriptErrors]
    | num n =>
        simp [NodejsNpmScriptAction.execute, hread, hparse, JValue.keys,
          JValue.typeName, NodejsNpmScriptAction.catchScriptErrors]
    | str s =>
        simp [NodejsNpmScriptAction.execute, hread, hparse, JValue.keys,
          JValue.typeName, NodejsNpmScriptAction.catchScriptErrors]
    | arr elems =>
        simp [NodejsNpmScriptAction.execute, hread, hparse, JValue.keys,
          JValue.typeName, NodejsNpmScriptAction.catchScriptErrors]
  · intro fields hobj hmem hnonobj
    subst hobj
    cases hval : (JValue.obj fields).item "scripts" with
    | obj script_fields => exact absurd hval (hnonobj script_fields)
    | null =>
        simp [NodejsNpmScriptAction.execute, hread, hparse, JValue.keys, hmem, hval,
          JValue.typeName, NodejsNpmScriptAction.catchScriptErrors]
    | bool b =>
        simp [NodejsNpmScriptAction.execute, hread, hparse, JValue.keys, hmem, hval,
          JValue.typeName, NodejsNpmScriptAction.catchScriptErrors]
    | num n =>
        simp [NodejsNpmScriptAction.execute, hread, hparse, JValue.keys, hmem, hval,
          JValue.typeName, NodejsNpmScriptAction.catchScriptErrors]
    | str s =>
        simp [NodejsNpmScriptAction.execute, hread, hparse, JValue.keys, hmem, hval,
          JValue.typeName, NodejsNpmScriptAction.catchScriptErrors]
    | arr elems =>
        simp [NodejsNpmScriptAction.execute, hread, hparse, JValue.keys, hmem, hval,
          JValue.typeName, NodejsNpmScriptAction.catchScriptErrors]

/-- C9 witness: a manifest parsing to a top-level list makes the script
action surface the uncaught `AttributeError` for `list`, with no executor
invocation. -/
theorem script_nonobject_attribute_error_witness :
    scriptActionBuild.execute osutilsOk jsonLoadsTopLevelList npmOkTar
      = (.error (.attributeError "'list' object has no attribute 'keys'"), []) :=
  (script_nonobject_attribute_error scriptActionBuild osutilsOk jsonLoadsTopLevelList
      npmOkTar "manifest-text" (.arr []) rfl rfl).1 (fun fields h => by cases h)

/-- C10: the manifest is read and parsed before any script-membership
check: for every script action (whatever its `script_name`, including ones
whose outcome would be the no-op), a parse failure yields the parse-fault
pipeline failure with zero executor invocations. -/
theorem script_parse_precedes_membership (a : NodejsNpmScriptAction)
    (osutils : OSUtils) (json_loads : String → Except String JValue)
    (subprocess_npm : SubprocessNpm) (manifest_contents msg : String)
    (hread : osutils.get_text_contents a.manifest_path = .ok manifest_contents)
    (hparse : json_loads manifest_contents = .error msg) :
    a.execute osutils json_loads subprocess_npm
      = (.error (.actionFailedError
          (a.manifest_path ++ " is not valid json: " ++ msg)), []) := by
  simp [NodejsNpmScriptAction.execute, hread, hparse,
    NodejsNpmScriptAction.catchScriptErrors]

/-- C10 witness: a script action whose requested script (`build`) would be
absent anyway still fails on an unparseable manifest, with no executor
invocation. -/
theorem script_parse_precedes_membership_witness :
    scriptActionBuild.execute osutilsOk jsonLoadsInvalid npmOkTar
      = (.error (.actionFailedError
          ("/proj/package.json" ++ " is not valid json: "
            ++ "Expecting value: line 1 column 1 (char 0)")), []) :=
  script_parse_precedes_membership scriptActionBuild osutilsOk jsonLoadsInvalid npmOkTar
    "manifest-text" "Expecting value: line 1 column 1 (char 0)" rfl rfl

end AwsLambdaBuilders
